import Mathlib

/-
Verification development for numpy's ufunc dispatching and promotion engine
(numpy/core/src/umath/dispatching.c).

The embedding models:
  - DType classes as tags with an `abstract` flag; the external subclass
    predicate `PyObject_IsSubclass` becomes an explicit boolean relation.
  - a registry entry ("info" tuple) as a pattern (one `Option DType` per
    operand slot, `none` standing for Python `None` / "matches anything")
    together with a target that is either an ArrayMethod or a promoter.
  - operand dtype arrays (`op_dtypes`) as lists of `Option DType`, where
    `none` stands for a C `NULL` slot (unspecified output, or the elided
    second input of a reduction).
  - the matcher `resolve_implementation_info`, the driver
    `promote_and_get_info_and_ufuncimpl` (with the dispatch cache, promoter
    recursion and the legacy fallback modelled explicitly, and the CPython
    error indicator threaded as an explicit `perr` field), and the entry
    point `promote_and_get_ufuncimpl`.

Recursion depth (`Py_EnterRecursiveCall` / the C call stack) is modelled by
an explicit fuel parameter; exhausting it produces the `recursionLimit`
error, mirroring the RecursionError the C code reports.
-/

set_option autoImplicit false

namespace NpyDispatch

/-- A dtype class: an identity-compared tag plus the `NPY_DT_is_abstract`
flag consumed from the type hierarchy. -/
structure DType where
  id : Nat
  abstract : Bool
deriving DecidableEq

/-- An operand-dtype tuple / signature / registry pattern: one
`Option DType` per operand slot.  For operand tuples `none` models a C
`NULL` slot; for registry patterns `none` models Python `None`
("matches anything"). -/
abbrev OpTup := List (Option DType)

/-- The second component of an info tuple: an ArrayMethod (identified by a
tag) or a promoter capsule (identified by a tag that the environment maps
to an actual promoter function). -/
inductive Target where
  | method (m : Nat)
  | promoter (p : Nat)
deriving DecidableEq

/-- Whether an info tuple's target is an ArrayMethod
(`PyObject_TypeCheck(..., &PyArrayMethod_Type)` in the C code). -/
def Target.isMethod : Target → Bool
  | Target.method _ => true
  | Target.promoter _ => false

/-- A registered loop: the info tuple `(dtype_tuple, ArrayMethod/promoter)`
stored in `ufunc->_loops`. -/
structure Info where
  patt : OpTup
  target : Target
deriving DecidableEq

/-- Result of invoking a promoter function: an error return with the error
indicator set, an abstention (a `-1` return with no error set, treated as
"this promoter does not apply"), or a fresh operand-dtype tuple. -/
inductive PromResult where
  | err
  | abstain
  | ok (newOpd : OpTup)
deriving DecidableEq

/-- The CPython error indicator states the dispatching code can set. -/
inductive ErrKind where
  /-- `PyObject_IsSubclass` invoked with the `NULL` operand slot of a
  reduction (the fall-through in `resolve_implementation_info` when the
  loop is not reduce-compatible and its slot is abstract). -/
  | nullSubclass
  /-- NotImplementedError: deciding between two different abstract dtypes. -/
  | ambiguousAbstract
  /-- RuntimeError: two promoters matched the input equally well; carries
  the queried operand dtypes and both competing patterns. -/
  | ambiguousPromoters (given : OpTup) (p1 : OpTup) (p2 : OpTup)
  /-- A promoter returned an error. -/
  | promoterError
  /-- RecursionError from `Py_EnterRecursiveCall` (bounded recursion). -/
  | recursionLimit
  /-- The legacy type resolver failed. -/
  | legacyError
  /-- No loop was found for the given operand dtypes. -/
  | noLoopFound (given : OpTup)
deriving DecidableEq

/-- Outcome of testing one slot of a registry pattern against one operand
slot: the slot matches, the whole entry is rejected, or the matcher aborts
with an error (the `NULL`-operand subclass query). -/
inductive SlotMatch where
  | ok
  | reject
  | err
deriving DecidableEq

/-- One iteration of the per-slot matching loop of
`resolve_implementation_info` (dispatching.c lines 225-274).
`given` is `op_dtypes[i]` (`none` = C `NULL`), `resolver` is the pattern's
slot `i` (`none` = Python `None`).  For a `NULL` input slot (`i < nin`,
a reduce-like call) the loop is accepted outright when the pattern's
slot 0 and slot 2 coincide; otherwise the code falls through to the
ordinary rules with the `NULL` operand, so an `Any` pattern slot still
matches, a concrete slot rejects, and an abstract slot reaches
`PyObject_IsSubclass(NULL, ...)`, modelled as the `err` outcome. -/
def matchSlot (sub : DType → DType → Bool) (patt : OpTup) (nin i : Nat)
    (given resolver : Option DType) : SlotMatch :=
  match given with
  | none =>
    if nin ≤ i then SlotMatch.ok
    else if patt.getD 0 none = patt.getD 2 none then SlotMatch.ok
    else
      match resolver with
      | none => SlotMatch.ok
      | some r => if r.abstract then SlotMatch.err else SlotMatch.reject
  | some g =>
    match resolver with
    | none => SlotMatch.ok
    | some r =>
      if g = r then SlotMatch.ok
      else if ¬ r.abstract then SlotMatch.reject
      else if sub g r then SlotMatch.ok else SlotMatch.reject

/-- Combine per-slot outcomes in slot order: the first non-`ok` outcome
decides (the C loop breaks at the first rejection or error). -/
def combineSlot (acc r : SlotMatch) : SlotMatch :=
  match acc with
  | SlotMatch.ok => r
  | _ => acc

/-- Whether a registry pattern matches the operand dtypes: all `nargs`
slots are tested in order and the first rejection or error decides. -/
def entryMatches (sub : DType → DType → Bool) (nin nargs : Nat)
    (opd patt : OpTup) : SlotMatch :=
  ((List.range nargs).map (fun i =>
      matchSlot sub patt nin i (opd.getD i none) (patt.getD i none))).foldl
    combineSlot SlotMatch.ok

/-- Outcome of comparing one slot of two matching patterns: either the
"two different abstract dtypes" error, or a vote (`none` = no information,
`some false` = the current best is better, `some true` = the new entry is
better). -/
inductive VoteRes where
  | abstract2
  | vote (b : Option Bool)
deriving DecidableEq

/-- One slot of the best-match comparison (dispatching.c lines 296-360).
`opdi` is `op_dtypes[i]`, `prev` the current best pattern's slot, `new`
the candidate pattern's slot. -/
def slotVote (opdi prev new : Option DType) : VoteRes :=
  if prev = new then VoteRes.vote none
  else if opdi = none then VoteRes.vote none
  else
    match prev, new with
    | none, _ => VoteRes.vote (some true)
    | _, none => VoteRes.vote (some false)
    | some p, some n =>
      if ¬ p.abstract ∧ ¬ n.abstract then
        (if some p = opdi then VoteRes.vote (some false)
         else if some n = opdi then VoteRes.vote (some true)
         else VoteRes.vote none)
      else if ¬ p.abstract then VoteRes.vote (some false)
      else if ¬ n.abstract then VoteRes.vote (some true)
      else VoteRes.abstract2

/-- Result of the whole comparison of two matching patterns: an error, or
a winner (`none` = no clear best, `some false` = keep the current best,
`some true` = the new entry is better). -/
inductive CmpOut where
  | err
  | winner (w : Option Bool)
deriving DecidableEq

/-- The slot-by-slot comparison loop (dispatching.c lines 290-380).
`fuel` counts the remaining slots (`nargs - i` at entry), `i` is the slot
index and `cb` the accumulated `current_best`.  The loop stops early once
`i == nin` with a decision in hand (output slots have lower priority),
and a slot vote conflicting with an earlier one forces "no clear best". -/
def compareGo (nin : Nat) (opd best curr : OpTup) :
    Nat → Nat → Option Bool → CmpOut
  | 0, _, cb => CmpOut.winner cb
  | fuel+1, i, cb =>
    if i = nin ∧ cb ≠ none then CmpOut.winner cb
    else
      match slotVote (opd.getD i none) (best.getD i none) (curr.getD i none) with
      | VoteRes.abstract2 => CmpOut.err
      | VoteRes.vote none => compareGo nin opd best curr fuel (i+1) cb
      | VoteRes.vote (some b) =>
        match cb with
        | none => compareGo nin opd best curr fuel (i+1) (some b)
        | some c =>
          if c = b then compareGo nin opd best curr fuel (i+1) (some b)
          else CmpOut.winner none

/-- Compare two matching patterns over all `nargs` slots. -/
def compareEntries (nin nargs : Nat) (opd best curr : OpTup) : CmpOut :=
  compareGo nin opd best curr nargs 0 none

/-- Result of `resolve_implementation_info`: a `-1` error return, or a `0`
return carrying the best info found (possibly nothing) together with the
error indicator the function may have set even on a `0` return (the
"two promoters matched equally well" RuntimeError is set and then the
function returns `0` with `*out_info = NULL`). -/
inductive RRes where
  | fail (e : ErrKind)
  | done (pending : Option ErrKind) (found : Option Info)
deriving DecidableEq

/-- An operation's dispatching environment: arity, the registered loops
(`ufunc->_loops` in registration order), the external subclass predicate,
the promoter functions behind the promoter capsules, and the legacy type
resolver (`none` models `ufunc->type_resolver == NULL` or a ufunc with no
legacy loops). The legacy resolver consumes the signature (the operands it
also reads in C are absorbed into the closure) and yields the full
operand-dtype tuple. -/
structure Env where
  nin : Nat
  nargs : Nat
  loops : List Info
  sub : DType → DType → Bool
  promFun : Nat → OpTup → OpTup → PromResult
  legacy : Option (OpTup → Except Unit OpTup)

/-- The registration-order scan with `only_promoters = NPY_TRUE`: loops
whose target is an ArrayMethod are skipped, and a tie sets the
"two promoters matched equally well" error and returns `0` with no info. -/
def scanLoopsOnlyPromoters (env : Env) (opd : OpTup) :
    List Info → Option Info → RRes
  | [], best => RRes.done none best
  | info :: rest, best =>
    if Target.isMethod info.target then scanLoopsOnlyPromoters env opd rest best
    else
      match entryMatches env.sub env.nin env.nargs opd info.patt with
      | SlotMatch.err => RRes.fail ErrKind.nullSubclass
      | SlotMatch.reject => scanLoopsOnlyPromoters env opd rest best
      | SlotMatch.ok =>
        match best with
        | none => scanLoopsOnlyPromoters env opd rest (some info)
        | some b =>
          match compareEntries env.nin env.nargs opd b.patt info.patt with
          | CmpOut.err => RRes.fail ErrKind.ambiguousAbstract
          | CmpOut.winner none =>
            RRes.done (some (ErrKind.ambiguousPromoters opd b.patt info.patt)) none
          | CmpOut.winner (some false) => scanLoopsOnlyPromoters env opd rest (some b)
          | CmpOut.winner (some true) => scanLoopsOnlyPromoters env opd rest (some info)

/-- The registration-order scan with `only_promoters = NPY_FALSE`: all
loops are considered, and a tie retries the whole lookup restricted to
promoters. -/
def scanLoopsAll (env : Env) (opd : OpTup) : List Info → Option Info → RRes
  | [], best => RRes.done none best
  | info :: rest, best =>
    match entryMatches env.sub env.nin env.nargs opd info.patt with
    | SlotMatch.err => RRes.fail ErrKind.nullSubclass
    | SlotMatch.reject => scanLoopsAll env opd rest best
    | SlotMatch.ok =>
      match best with
      | none => scanLoopsAll env opd rest (some info)
      | some b =>
        match compareEntries env.nin env.nargs opd b.patt info.patt with
        | CmpOut.err => RRes.fail ErrKind.ambiguousAbstract
        | CmpOut.winner none => scanLoopsOnlyPromoters env opd env.loops none
        | CmpOut.winner (some false) => scanLoopsAll env opd rest (some b)
        | CmpOut.winner (some true) => scanLoopsAll env opd rest (some info)

/-- `resolve_implementation_info`: find the best matching registered loop
for the operand dtypes using multiple dispatch. -/
def resolve_implementation_info (env : Env) (opd : OpTup)
    (onlyPromoters : Bool) : RRes :=
  if onlyPromoters then scanLoopsOnlyPromoters env opd env.loops none
  else scanLoopsAll env opd env.loops none

/-- The mutable per-call state threaded through the driver: the dispatch
cache (`ufunc->_dispatch_cache`, an identity-keyed map whose stored value
may be the `NULL` a failed legacy recursion returned), the signature array
(mutated in place by the legacy resolver), the CPython error indicator,
and an instrumentation counter of legacy-resolver invocations. -/
structure DState where
  cache : List (OpTup × Option Info)
  sig : OpTup
  perr : Option ErrKind
  legacyCalls : Nat
deriving DecidableEq

/-- `PyArrayIdentityHash_GetItem`: the first entry stored under the key
(later writes are prepended and shadow older ones); a stored `NULL` value
behaves exactly like a missing key. -/
def cacheGet : List (OpTup × Option Info) → OpTup → Option Info
  | [], _ => none
  | (k, v) :: rest, key => if k = key then v else cacheGet rest key

/-- The signature rewrite the legacy path performs (dispatching.c lines
607-613): every non-`NULL` signature slot that differs from the resolved
operand dtype is overwritten with it. -/
def sigUpdate (nargs : Nat) (sig newOpd : OpTup) : OpTup :=
  (List.range nargs).map (fun i =>
    if sig.getD i none ≠ none ∧ sig.getD i none ≠ newOpd.getD i none
    then newOpd.getD i none else sig.getD i none)

/-- Whether the legacy resolution may be cached: it may not whenever the
signature rewrite of `sigUpdate` changed any slot. -/
def sigCacheable (nargs : Nat) (sig newOpd : OpTup) : Bool :=
  (List.range nargs).all (fun i =>
    !(decide (sig.getD i none ≠ none ∧ sig.getD i none ≠ newOpd.getD i none)))

/-- `legacy_promote_using_legacy_type_resolver`: run the old type resolver
on the signature, returning the resolved operand dtypes, the rewritten
signature and the cacheable flag. -/
def legacy_promote_using_legacy_type_resolver
    (lf : OpTup → Except Unit OpTup) (nargs : Nat) (sig : OpTup) :
    Except Unit (OpTup × OpTup × Bool) :=
  match lf sig with
  | Except.error _ => Except.error ()
  | Except.ok newOpd =>
    Except.ok (newOpd, sigUpdate nargs sig newOpd, sigCacheable nargs sig newOpd)

/-- `call_promoter_and_recurse`: invoke the promoter behind capsule `pid`
with the current operand dtypes and signature.  An error return or an
abstention yields no info; a returned tuple identical to the input aborts
the path (it would recurse forever); otherwise the driver recurses on the
new tuple with legacy promotion disabled (`recur` is the driver one
recursion level down). -/
def call_promoter_and_recurse (env : Env)
    (recur : DState → OpTup → DState × Option Info)
    (st : DState) (opd : OpTup) (pid : Nat) : DState × Option Info :=
  match env.promFun pid opd st.sig with
  | PromResult.err => ({st with perr := some ErrKind.promoterError}, none)
  | PromResult.abstain => (st, none)
  | PromResult.ok newOpd =>
    if newOpd = opd then (st, none)
    else recur st newOpd

/-- The legacy-fallback tail of `promote_and_get_info_and_ufuncimpl`
(dispatching.c lines 735-758): if legacy promotion is still allowed and a
legacy resolver exists, run it, recurse once more with legacy promotion
disabled, and cache the recursion's result (even a `NULL` one) under the
original operand dtypes unless the signature rewrite made the resolution
non-cacheable. -/
def legacy_fallback (env : Env)
    (recur : DState → OpTup → DState × Option Info)
    (st : DState) (opd : OpTup) (allowLegacy : Bool) : DState × Option Info :=
  if allowLegacy = false then (st, none)
  else
    match env.legacy with
    | none => (st, none)
    | some lf =>
      match legacy_promote_using_legacy_type_resolver lf env.nargs st.sig with
      | Except.error _ =>
        ({st with
            perr := some ErrKind.legacyError,
            legacyCalls := st.legacyCalls + 1},
         none)
      | Except.ok (newOpd, sigU, cacheable) =>
        let r := recur
          {st with
            sig := sigU,
            legacyCalls := st.legacyCalls + 1}
          newOpd
        if cacheable then ({r.1 with cache := (opd, r.2) :: r.1.cache}, r.2)
        else r

/-- Set the error indicator the matcher may have left pending on a `0`
return (the ambiguous-promoters RuntimeError). -/
def applyPending (st : DState) : Option ErrKind → DState
  | some e => {st with perr := some e}
  | none => st

/-- `promote_and_get_info_and_ufuncimpl`: probe the cache, run the matcher
on a miss, call and recurse through a found promoter, and finally fall
back to the legacy resolver.  The fuel argument models the bounded
recursion (`Py_EnterRecursiveCall` / the C call stack); both recursion
sites pass `allow_legacy = NPY_FALSE`. -/
def promote_and_get_info_and_ufuncimpl (env : Env) :
    Nat → DState → OpTup → Bool → DState × Option Info
  | 0, st, _, _ => ({st with perr := some ErrKind.recursionLimit}, none)
  | fuel+1, st, opd, allowLegacy =>
    match cacheGet st.cache opd with
    | some cinfo =>
      match cinfo.target with
      | Target.method _ => (st, some cinfo)
      | Target.promoter pid =>
        let r := call_promoter_and_recurse env
          (fun st2 o2 => promote_and_get_info_and_ufuncimpl env fuel st2 o2 false)
          st opd pid
        match r.2 with
        | some inf => ({r.1 with cache := (opd, some inf) :: r.1.cache}, some inf)
        | none =>
          if r.1.perr ≠ none then (r.1, none)
          else legacy_fallback env
            (fun st2 o2 => promote_and_get_info_and_ufuncimpl env fuel st2 o2 false)
            r.1 opd allowLegacy
    | none =>
      match resolve_implementation_info env opd false with
      | RRes.fail e => ({st with perr := some e}, none)
      | RRes.done pending found =>
        let st1 : DState := applyPending st pending
        match found with
        | some info =>
          match info.target with
          | Target.method _ =>
            ({st1 with cache := (opd, some info) :: st1.cache}, some info)
          | Target.promoter pid =>
            let r := call_promoter_and_recurse env
              (fun st2 o2 => promote_and_get_info_and_ufuncimpl env fuel st2 o2 false)
              st1 opd pid
            match r.2 with
            | some inf => ({r.1 with cache := (opd, some inf) :: r.1.cache}, some inf)
            | none =>
              if r.1.perr ≠ none then (r.1, none)
              else legacy_fallback env
                (fun st2 o2 => promote_and_get_info_and_ufuncimpl env fuel st2 o2 false)
                r.1 opd allowLegacy
        | none =>
          legacy_fallback env
            (fun st2 o2 => promote_and_get_info_and_ufuncimpl env fuel st2 o2 false)
            st1 opd allowLegacy

/-- The signature overlay at the top of `promote_and_get_ufuncimpl`
(dispatching.c lines 812-831): a fixed signature slot overrides the
operand dtype, and an output slot not fixed by the signature is cleared
to `NULL`. -/
def overlay (nin nargs : Nat) (sig opd : OpTup) : OpTup :=
  (List.range nargs).map (fun i =>
    match sig.getD i none with
    | some s => some s
    | none => if nin ≤ i then none else opd.getD i none)

/-- The final signature fill (dispatching.c lines 878-886): every still
unset signature slot adopts the matched loop's registered dtype. -/
def fillSig (nargs : Nat) (sig patt : OpTup) : OpTup :=
  (List.range nargs).map (fun i =>
    match sig.getD i none with
    | some s => some s
    | none => patt.getD i none)

/-- Intermediate result of one resolution pass of
`promote_and_get_ufuncimpl`: the driver state, the operand dtypes as
mutated by the overlay (and, under `force_legacy_promotion`, by the legacy
resolver), and the info the driver found. -/
structure PRes where
  st : DState
  opd : OpTup
  found : Option Info
deriving DecidableEq

/-- One resolution pass of `promote_and_get_ufuncimpl`: overlay the
signature onto the operand dtypes, optionally force legacy promotion
up-front (value-based casting), then run the driver. -/
def pgu_once (env : Env) (dfuel : Nat) (st : DState) (opd : OpTup)
    (forceLegacy allowLegacy : Bool) : PRes :=
  let opd1 := overlay env.nin env.nargs st.sig opd
  if forceLegacy = true then
    match env.legacy with
    | none => ⟨{st with perr := some ErrKind.legacyError}, opd1, none⟩
    | some lf =>
      match legacy_promote_using_legacy_type_resolver lf env.nargs st.sig with
      | Except.error _ => ⟨{st with perr := some ErrKind.legacyError}, opd1, none⟩
      | Except.ok (newOpd, sigU, _) =>
        let st1 : DState :=
          {st with sig := sigU, legacyCalls := st.legacyCalls + 1}
        let r := promote_and_get_info_and_ufuncimpl env dfuel st1 newOpd allowLegacy
        ⟨r.1, newOpd, r.2⟩
  else
    let r := promote_and_get_info_and_ufuncimpl env dfuel st opd1 allowLegacy
    ⟨r.1, opd1, r.2⟩

/-- The tail of `promote_and_get_ufuncimpl` when no reduce-compatibility
correction applies: raise `NoMatchingImplementation` if nothing was found
(and no other error is pending), otherwise fill the signature from the
matched loop's dtypes and return it with the found info. -/
def pgu_finish (env : Env) (r : PRes) : DState × Option (OpTup × Info) :=
  match r.found with
  | none =>
    ((match r.st.perr with
      | some _ => r.st
      | none => {r.st with perr := some (ErrKind.noLoopFound r.opd)}),
     none)
  | some info =>
    let sigF := fillSig env.nargs r.st.sig info.patt
    ({r.st with sig := sigF}, some (sigF, info))

/-- The behaviour of `promote_and_get_ufuncimpl` with
`ensure_reduce_compatible = NPY_FALSE`: a single resolution pass followed
by the finishing step (no reduce correction can trigger). -/
def pgu_second (env : Env) (dfuel : Nat) (st : DState) (opd : OpTup)
    (forceLegacy allowLegacy : Bool) : DState × Option (OpTup × Info) :=
  pgu_finish env (pgu_once env dfuel st opd forceLegacy allowLegacy)

/-- `promote_and_get_ufuncimpl`: the central entry point.  After a
successful resolution, if `ensure_reduce_compatible` is set, signature
slot 0 is unset and the matched loop's slot 0 differs from its slot 2,
signature slot 0 is forced to the loop's slot 2 and the whole resolution
re-runs exactly once with `ensure_reduce_compatible = NPY_FALSE`. -/
def promote_and_get_ufuncimpl (env : Env) (dfuel : Nat) (st : DState)
    (opd : OpTup) (forceLegacy allowLegacy ensureReduceCompatible : Bool) :
    DState × Option (OpTup × Info) :=
  let r := pgu_once env dfuel st opd forceLegacy allowLegacy
  match r.found with
  | some info =>
    if ensureReduceCompatible = true ∧ r.st.sig.getD 0 none = none ∧
        info.patt.getD 0 none ≠ info.patt.getD 2 none then
      pgu_second env dfuel
        {r.st with sig := r.st.sig.set 0 (info.patt.getD 2 none)}
        r.opd forceLegacy allowLegacy
    else pgu_finish env r
  | none => pgu_finish env r

/-- The `type_num` of the boolean dtype, for the comparison-ufunc
deprecation guard of the default promoter. -/
def boolTypeNum : Nat := 0

/-- The deprecation guard at the top of `default_ufunc_promoter`
(dispatching.c lines 904-909): a simple-binary-comparison ufunc with both
inputs unconstrained and the output fixed to a non-boolean dtype bails
out (only to give a future/deprecation warning via the legacy path). -/
def sbcGuard (isSBC : Bool) (sig : OpTup) : Bool :=
  isSBC && (sig.getD 0 none).isNone && (sig.getD 1 none).isNone &&
    (match sig.getD 2 none with
     | some s => decide (s.id ≠ boolTypeNum)
     | none => false)

/-- The fold computing the homogeneous signature-output dtype
(dispatching.c lines 929-940): the first fixed output slot seeds it and a
differing later one clears it and stops the scan. -/
def sigOutCommonGo (sig : OpTup) : List Nat → Option DType → Option DType
  | [], common => common
  | i :: rest, common =>
    match sig.getD i none with
    | none => sigOutCommonGo sig rest common
    | some s =>
      match common with
      | none => sigOutCommonGo sig rest (some s)
      | some c => if c = s then sigOutCommonGo sig rest (some s) else none

/-- The homogeneous dtype among fixed signature output slots, if any. -/
def sigOutCommon (nin nargs : Nat) (sig : OpTup) : Option DType :=
  sigOutCommonGo sig ((List.range nargs).drop nin) none

/-- `default_ufunc_promoter`: the generic homogeneous-operation fallback.
`isSBC` models `ufunc->type_resolver ==
&PyUFunc_SimpleBinaryComparisonTypeResolver`; `commonF` is the external
`PyArray_PromoteDTypeSequence` over the input operand dtypes, whose
failure (a TypeError, cleared by the promoter) becomes an abstention.
In the reduction case (`op_dtypes[0] == NULL`) the second input's dtype is
broadcast to all three slots.  Otherwise the common dtype fills the input
slots not fixed by the signature — and the second loop of the C function
then overwrites every output slot with the incoming operand dtype. -/
def default_ufunc_promoter (isSBC : Bool) (commonF : OpTup → Option DType)
    (nin nargs : Nat) (opd sig : OpTup) : PromResult :=
  if sbcGuard isSBC sig then PromResult.abstain
  else
    match opd.getD 0 none with
    | none =>
      PromResult.ok [opd.getD 1 none, opd.getD 1 none, opd.getD 1 none]
    | some _ =>
      let common :=
        match sigOutCommon nin nargs sig with
        | some c => some c
        | none => commonF (opd.take nin)
      match common with
      | none => PromResult.abstain
      | some c =>
        PromResult.ok ((List.range nargs).map (fun i =>
          if i < nin then
            (match sig.getD i none with
             | some s => some s
             | none => some c)
          else opd.getD i none))

/-- `object_only_ufunc_promoter`, modelled at the level of which slots of
the caller's `new_op_dtypes` array it writes: the C function assigns only
the slots whose signature entry is `NULL`, so a slot fixed by the
signature is left as the uninitialized stack memory of
`call_promoter_and_recurse` (`none` in the outer option). -/
def object_only_ufunc_promoter (objectDType : DType) (nargs : Nat)
    (sig : OpTup) : List (Option (Option DType)) :=
  (List.range nargs).map (fun i =>
    match sig.getD i none with
    | none => some (some objectDType)
    | some _ => none)

/-! ### Helper lemmas -/

theorem foldl_combineSlot_stick (l : List SlotMatch) (a : SlotMatch)
    (h : a ≠ SlotMatch.ok) : l.foldl combineSlot a = a := by
  induction l with
  | nil => rfl
  | cons x xs ih =>
    rw [List.foldl_cons]
    have hx : combineSlot a x = a := by
      cases a with
      | ok => exact absurd rfl h
      | reject => rfl
      | err => rfl
    rw [hx, ih]

theorem getD_map_range {α : Type} (f : Nat → α) (d : α) (n i : Nat)
    (h : i < n) : ((List.range n).map f).getD i d = f i := by
  rw [List.getD_eq_getElem?_getD, List.getElem?_map, List.getElem?_range h]
  rfl

theorem getD_set_zero (l : OpTup) (a : Option DType) (h : 0 < l.length) :
    (l.set 0 a).getD 0 none = a := by
  cases l with
  | nil => simp at h
  | cons x xs => rfl

/-! ### Concrete scenario environments used by the claim witnesses and
counterexamples -/

/-- A concrete (non-abstract) dtype standing for int32. -/
def i32 : DType := ⟨5, false⟩

/-- A concrete dtype standing for float64. -/
def f64 : DType := ⟨6, false⟩

/-- A concrete scenario dtype. -/
def tX : DType := ⟨3, false⟩

/-- A concrete scenario dtype. -/
def tY : DType := ⟨4, false⟩

/-- A concrete scenario dtype. -/
def tZ : DType := ⟨7, false⟩

/-- A concrete scenario dtype (a reduction operand dtype). -/
def tT : DType := ⟨20, false⟩

/-- A concrete scenario dtype (a reduce-incompatible output dtype). -/
def tB : DType := ⟨21, false⟩

/-- A concrete dtype standing for the generic object dtype. -/
def objectD : DType := ⟨1, false⟩

/-- An abstract scenario dtype. -/
def aA : DType := ⟨10, true⟩

/-- Another abstract scenario dtype. -/
def aB : DType := ⟨11, true⟩

/-- The empty subclass relation. -/
def subFalse : DType → DType → Bool := fun _ _ => false

/-- A subclass relation in which the dtype with id 1 is a subclass of both
abstract dtypes `aA` and `aB`. -/
def subW : DType → DType → Bool :=
  fun d u => d.id == 1 && (u.id == 10 || u.id == 11)

/-- The initial driver state: empty cache, fully unset 3-slot signature,
no pending error. -/
def st0 : DState := ⟨[], [none, none, none], none, 0⟩

/-- An exact int32 loop. -/
def eI32 : Info := ⟨[some i32, some i32, some i32], Target.method 1⟩

/-- A catch-all promoter loop. -/
def eAny : Info := ⟨[none, none, none], Target.promoter 1⟩

/-- An exact float64 loop. -/
def eF64 : Info := ⟨[some f64, some f64, some f64], Target.method 2⟩

/-- The promoter-chain environment (the spec's float64 promotion
scenario): an int32 loop, a catch-all promoter rewriting everything to
float64, and a float64 loop. -/
def envC4 : Env :=
  ⟨2, 3, [eI32, eAny, eF64], subFalse,
   fun _ _ _ => PromResult.ok [some f64, some f64, some f64], none⟩

/-- The mixed-dtype query rewritten by the promoter of `envC4`. -/
def opdC4 : OpTup := [some i32, some f64, none]

/-- A promoter loop matching queries whose first input is `tX`. -/
def eP1 : Info := ⟨[some tX, none, none], Target.promoter 1⟩

/-- A promoter loop matching queries whose second input is `tY`. -/
def eP2 : Info := ⟨[none, some tY, none], Target.promoter 2⟩

/-- An exact `tZ` loop, reachable only through the legacy resolver. -/
def eZ : Info := ⟨[some tZ, some tZ, some tZ], Target.method 7⟩

/-- Two promoters that match the query `(tX, tY, NULL)` equally well
(their slot votes conflict), plus a legacy resolver that promotes
everything to `tZ`, for which an exact loop exists. -/
def envC2 : Env :=
  ⟨2, 3, [eP1, eP2, eZ], subFalse, fun _ _ _ => PromResult.err,
   some (fun _ => Except.ok [some tZ, some tZ, some tZ])⟩

/-- The query on which the two promoters of `envC2` tie. -/
def opdC2 : OpTup := [some tX, some tY, none]

/-- The two tied promoters of `envC2` without the legacy fallback. -/
def envC2w : Env :=
  ⟨2, 3, [eP1, eP2], subFalse, fun _ _ _ => PromResult.err, none⟩

/-- A loop with the abstract dtype `aA` in its first slot. -/
def eAbsA : Info := ⟨[some aA, some objectD, some objectD], Target.method 1⟩

/-- A loop with the abstract dtype `aB` in its first slot. -/
def eAbsB : Info := ⟨[some aB, some objectD, some objectD], Target.method 2⟩

/-- Two loops that differ only in abstract first slots, both matching a
query whose first operand is a subclass of both. -/
def envC9 : Env :=
  ⟨2, 3, [eAbsA, eAbsB], subW, fun _ _ _ => PromResult.err, none⟩

/-- The query on which both abstract loops of `envC9` match. -/
def opdC9 : OpTup := [some objectD, some objectD, some objectD]

/-- An environment whose only loop is a promoter that returns its input
unchanged. -/
def envC8 : Env :=
  ⟨2, 3, [⟨[none, none, none], Target.promoter 9⟩], subFalse,
   fun _ opd _ => PromResult.ok opd, none⟩

/-- A query matching the identity promoter of `envC8`. -/
def opdC8 : OpTup := [some tX, some tX, none]

/-- A common-dtype oracle that always promotes to float64. -/
def cfW : OpTup → Option DType := fun _ => some f64

/-- A reduce-style loop whose output dtype `tB` differs from its (`Any`)
first slot, as the logical ufuncs register. -/
def eRed : Info := ⟨[none, some tT, some tB], Target.method 3⟩

/-- The environment for the reduce-compatibility correction: a single
loop whose pattern slot 0 differs from its slot 2. -/
def envC5 : Env :=
  ⟨2, 3, [eRed], subFalse, fun _ _ _ => PromResult.err, none⟩

/-- The reduction query `(NULL, tT, NULL)`. -/
def opdC5 : OpTup := [none, some tT, none]

/-! ### Claim C1 -/

/-- C1 counterexample: for the reduction query `(NULL, tX, NULL)` and the
non-reduce-compatible pattern `(aA, tX, tY)` whose slot 0 is the abstract
dtype `aA` (not `Any`), the matcher does not reject the entry as the claim
states: it falls through to the subclass rule on the `NULL` operand, an
error outcome. -/
theorem c1_counterexample :
    entryMatches subFalse 2 3 [none, some tX, none] [some aA, some tX, some tY]
      = SlotMatch.err
    ∧ SlotMatch.err ≠ SlotMatch.reject := by
  constructor
  · decide
  · decide

/-- C1 (amended): for a reduction-style query with `op_dtypes[i] = NULL`
at an input slot `i < nin` — here the first slot, the only `NULL` input
slot a reduction produces — the slot matches when the pattern's slot 0
equals its slot 2; otherwise the remaining per-slot rules run on the
`NULL` operand, so a concrete pattern slot rejects the whole entry while
an abstract pattern slot aborts with the `NULL`-operand subclass query
instead of a clean rejection. -/
theorem c1_reduce_slot_matching (sub : DType → DType → Bool)
    (nin nargs : Nat) (opd patt : OpTup) (r : DType)
    (h0 : 0 < nin) (hn : 0 < nargs)
    (hg : opd.getD 0 none = none)
    (hr : patt.getD 0 none = some r) :
    (patt.getD 0 none = patt.getD 2 none →
      matchSlot sub patt nin 0 (opd.getD 0 none) (patt.getD 0 none)
        = SlotMatch.ok)
    ∧ (patt.getD 0 none ≠ patt.getD 2 none → r.abstract = false →
      entryMatches sub nin nargs opd patt = SlotMatch.reject)
    ∧ (patt.getD 0 none ≠ patt.getD 2 none → r.abstract = true →
      entryMatches sub nin nargs opd patt = SlotMatch.err) := by
  have hnin0 : ¬ (nin ≤ 0) := by omega
  refine ⟨?_, ?_, ?_⟩
  · intro heq
    rw [hg, hr]
    unfold matchSlot
    rw [if_neg hnin0, if_pos heq]
  · intro hne habs
    obtain ⟨m, rfl⟩ : ∃ m, nargs = m + 1 := ⟨nargs - 1, by omega⟩
    rw [entryMatches, List.range_succ_eq_map, List.map_cons, List.foldl_cons]
    have hhead : matchSlot sub patt nin 0 (opd.getD 0 none) (patt.getD 0 none)
        = SlotMatch.reject := by
      rw [hg, hr]
      unfold matchSlot
      rw [if_neg hnin0, if_neg hne]
      simp [habs]
    rw [hhead]
    exact foldl_combineSlot_stick _ _ (by decide)
  · intro hne habs
    obtain ⟨m, rfl⟩ : ∃ m, nargs = m + 1 := ⟨nargs - 1, by omega⟩
    rw [entryMatches, List.range_succ_eq_map, List.map_cons, List.foldl_cons]
    have hhead : matchSlot sub patt nin 0 (opd.getD 0 none) (patt.getD 0 none)
        = SlotMatch.err := by
      rw [hg, hr]
      unfold matchSlot
      rw [if_neg hnin0, if_neg hne]
      simp [habs]
    rw [hhead]
    exact foldl_combineSlot_stick _ _ (by decide)

/-- C1 witness: the amended theorem applied to the reduction query
`(NULL, tX, NULL)` and the concrete non-reduce-compatible pattern
`(i32, tX, tY)`, whose slot 0 is concrete, so the entry is rejected. -/
theorem c1_witness :
    entryMatches subFalse 2 3 [none, some tX, none]
      [some i32, some tX, some tY] = SlotMatch.reject :=
  (c1_reduce_slot_matching subFalse 2 3 [none, some tX, none]
      [some i32, some tX, some tY] i32 (by decide) (by decide) (by decide)
      (by decide)).2.1 (by decide) (by decide)

end NpyDispatch

namespace NpyDispatch

/-! ### Unfolding equations for the recursive scan functions -/

theorem scanLoopsOnlyPromoters_nil (env : Env) (opd : OpTup)
    (best : Option Info) :
    scanLoopsOnlyPromoters env opd [] best = RRes.done none best := rfl

theorem scanLoopsOnlyPromoters_cons (env : Env) (opd : OpTup) (info : Info)
    (rest : List Info) (best : Option Info) :
    scanLoopsOnlyPromoters env opd (info :: rest) best =
      (if Target.isMethod info.target then
        scanLoopsOnlyPromoters env opd rest best
      else
        match entryMatches env.sub env.nin env.nargs opd info.patt with
        | SlotMatch.err => RRes.fail ErrKind.nullSubclass
        | SlotMatch.reject => scanLoopsOnlyPromoters env opd rest best
        | SlotMatch.ok =>
          match best with
          | none => scanLoopsOnlyPromoters env opd rest (some info)
          | some b =>
            match compareEntries env.nin env.nargs opd b.patt info.patt with
            | CmpOut.err => RRes.fail ErrKind.ambiguousAbstract
            | CmpOut.winner none =>
              RRes.done (some (ErrKind.ambiguousPromoters opd b.patt info.patt))
                none
            | CmpOut.winner (some false) =>
              scanLoopsOnlyPromoters env opd rest (some b)
            | CmpOut.winner (some true) =>
              scanLoopsOnlyPromoters env opd rest (some info)) := rfl

theorem scanLoopsAll_nil (env : Env) (opd : OpTup) (best : Option Info) :
    scanLoopsAll env opd [] best = RRes.done none best := rfl

theorem scanLoopsAll_cons (env : Env) (opd : OpTup) (info : Info)
    (rest : List Info) (best : Option Info) :
    scanLoopsAll env opd (info :: rest) best =
      (match entryMatches env.sub env.nin env.nargs opd info.patt with
      | SlotMatch.err => RRes.fail ErrKind.nullSubclass
      | SlotMatch.reject => scanLoopsAll env opd rest best
      | SlotMatch.ok =>
        match best with
        | none => scanLoopsAll env opd rest (some info)
        | some b =>
          match compareEntries env.nin env.nargs opd b.patt info.patt with
          | CmpOut.err => RRes.fail ErrKind.ambiguousAbstract
          | CmpOut.winner none => scanLoopsOnlyPromoters env opd env.loops none
          | CmpOut.winner (some false) => scanLoopsAll env opd rest (some b)
          | CmpOut.winner (some true) => scanLoopsAll env opd rest (some info)) :=
  rfl

theorem resolve_implementation_info_false (env : Env) (opd : OpTup) :
    resolve_implementation_info env opd false
      = scanLoopsAll env opd env.loops none := rfl

theorem compareGo_zero (nin : Nat) (opd best curr : OpTup) (i : Nat)
    (cb : Option Bool) :
    compareGo nin opd best curr 0 i cb = CmpOut.winner cb := rfl

theorem compareGo_succ (nin : Nat) (opd best curr : OpTup) (fuel i : Nat)
    (cb : Option Bool) :
    compareGo nin opd best curr (fuel+1) i cb =
      (if i = nin ∧ cb ≠ none then CmpOut.winner cb
      else
        match slotVote (opd.getD i none) (best.getD i none)
            (curr.getD i none) with
        | VoteRes.abstract2 => CmpOut.err
        | VoteRes.vote none => compareGo nin opd best curr fuel (i+1) cb
        | VoteRes.vote (some b) =>
          match cb with
          | none => compareGo nin opd best curr fuel (i+1) (some b)
          | some c =>
            if c = b then compareGo nin opd best curr fuel (i+1) (some b)
            else CmpOut.winner none) := rfl

theorem pgi_zero (env : Env) (st : DState) (opd : OpTup) (aL : Bool) :
    promote_and_get_info_and_ufuncimpl env 0 st opd aL
      = ({st with perr := some ErrKind.recursionLimit}, none) := rfl

/-! ### Claim C2 -/

/-- C2 counterexample: on the query where the two promoters of `envC2`
tie (and the tie persists in the promoters-only retry, as witnessed by
the pending `ambiguousPromoters` error), the engine does not fail: the
legacy fallback still runs with the error pending and resolution returns
the concrete `tZ` implementation successfully. -/
theorem c2_counterexample :
    (promote_and_get_info_and_ufuncimpl envC2 3 st0 opdC2 true).2 = some eZ
    ∧ (promote_and_get_info_and_ufuncimpl envC2 3 st0 opdC2 true).1.perr
      = some (ErrKind.ambiguousPromoters opdC2 eP1.patt eP2.patt) := by
  constructor
  · decide
  · decide

/-- C2 (amended): when two registered promoter entries both match a query
with no clear slot-by-slot winner and the tie persists in the
promoters-only retry, the matcher sets the `ambiguousPromoters` error
naming the queried operand dtypes and both competing patterns and
reports no entry (neither tied entry is ever picked); if the legacy
fallback is disallowed or absent, resolution returns nothing with that
error surfaced to the caller.  (When a legacy resolver is available the
code still attempts it with the error pending and may return a
successful result, as the counterexample shows.) -/
theorem c2_ambiguous_promoters (env : Env) (fuel : Nat) (st : DState)
    (opd : OpTup) (allowLegacy : Bool) (e1 e2 : Info) (q1 q2 : Nat)
    (hloops : env.loops = [e1, e2])
    (ht1 : e1.target = Target.promoter q1)
    (ht2 : e2.target = Target.promoter q2)
    (hm1 : entryMatches env.sub env.nin env.nargs opd e1.patt = SlotMatch.ok)
    (hm2 : entryMatches env.sub env.nin env.nargs opd e2.patt = SlotMatch.ok)
    (hcmp : compareEntries env.nin env.nargs opd e1.patt e2.patt
      = CmpOut.winner none)
    (hmiss : cacheGet st.cache opd = none)
    (hnol : allowLegacy = false ∨ env.legacy = none) :
    resolve_implementation_info env opd false
      = RRes.done (some (ErrKind.ambiguousPromoters opd e1.patt e2.patt)) none
    ∧ promote_and_get_info_and_ufuncimpl env (fuel+1) st opd allowLegacy
      = ({st with
            perr := some (ErrKind.ambiguousPromoters opd e1.patt e2.patt)},
         none) := by
  have hres : resolve_implementation_info env opd false
      = RRes.done (some (ErrKind.ambiguousPromoters opd e1.patt e2.patt)) none := by
    rw [resolve_implementation_info_false, hloops]
    simp only [scanLoopsAll_cons, scanLoopsAll_nil, hm1, hm2, hcmp, hloops,
      scanLoopsOnlyPromoters_cons, scanLoopsOnlyPromoters_nil, ht1, ht2,
      Target.isMethod, Bool.false_eq_true, if_false]
  refine ⟨hres, ?_⟩
  simp only [promote_and_get_info_and_ufuncimpl, hmiss, hres, applyPending]
  rcases hnol with h | h
  · subst h
    simp [legacy_fallback]
  · cases allowLegacy with
    | false => simp [legacy_fallback]
    | true => simp [legacy_fallback, h]

/-- C2 witness: the amended theorem applied to the two tied promoters of
`envC2w` (an environment with no legacy resolver), showing the tie is
reported as the ambiguity error and nothing is returned. -/
theorem c2_witness :
    resolve_implementation_info envC2w opdC2 false
      = RRes.done (some (ErrKind.ambiguousPromoters opdC2 eP1.patt eP2.patt)) none
    ∧ promote_and_get_info_and_ufuncimpl envC2w 3 st0 opdC2 true
      = ({st0 with
            perr := some (ErrKind.ambiguousPromoters opdC2 eP1.patt eP2.patt)},
         none) :=
  c2_ambiguous_promoters envC2w 2 st0 opdC2 true eP1 eP2 1 2 rfl rfl rfl
    (by decide) (by decide) (by decide) rfl (Or.inr rfl)

end NpyDispatch

namespace NpyDispatch

/-! ### Claim C9 -/

/-- If every slot before `i` contributes no vote and slot `i` compares
two different abstract dtypes at a defined operand, the comparison loop
reaches slot `i` with no decision pending and aborts with the error. -/
theorem compareGo_err (nin : Nat) (opd b c : OpTup) :
    ∀ (fuel i0 i : Nat), i0 ≤ i → i < i0 + fuel →
      (∀ j, i0 ≤ j → j < i →
        slotVote (opd.getD j none) (b.getD j none) (c.getD j none)
          = VoteRes.vote none) →
      slotVote (opd.getD i none) (b.getD i none) (c.getD i none)
        = VoteRes.abstract2 →
      compareGo nin opd b c fuel i0 none = CmpOut.err := by
  intro fuel
  induction fuel with
  | zero => intro i0 i h1 h2 _ _; omega
  | succ fuel ih =>
    intro i0 i h1 h2 hall hslot
    rw [compareGo_succ]
    have hguard : ¬ (i0 = nin ∧ (none : Option Bool) ≠ none) := by simp
    rw [if_neg hguard]
    by_cases hii : i0 = i
    · subst hii
      rw [hslot]
    · have hv := hall i0 (le_refl _) (by omega)
      rw [hv]
      exact ih (i0+1) i (by omega) (by omega)
        (fun j hj1 hj2 => hall j (by omega) hj2) hslot

/-- C9: whenever the best-match comparison of two matching entries hits a
discriminating slot (operand defined, pattern slots differing) where both
pattern slots are abstract — with no earlier slot having produced any
vote — the whole resolution fails immediately with the
`ambiguousAbstract` error instead of guessing, and the driver surfaces it
with no result. -/
theorem c9_abstract_comparison_error (env : Env) (fuel : Nat) (st : DState)
    (opd : OpTup) (allowLegacy : Bool) (e1 e2 : Info) (i : Nat)
    (hloops : env.loops = [e1, e2])
    (hm1 : entryMatches env.sub env.nin env.nargs opd e1.patt = SlotMatch.ok)
    (hm2 : entryMatches env.sub env.nin env.nargs opd e2.patt = SlotMatch.ok)
    (hi : i < env.nargs)
    (hall : ∀ j, j < i →
      slotVote (opd.getD j none) (e1.patt.getD j none) (e2.patt.getD j none)
        = VoteRes.vote none)
    (hslot : slotVote (opd.getD i none) (e1.patt.getD i none)
        (e2.patt.getD i none) = VoteRes.abstract2)
    (hmiss : cacheGet st.cache opd = none) :
    resolve_implementation_info env opd false
      = RRes.fail ErrKind.ambiguousAbstract
    ∧ promote_and_get_info_and_ufuncimpl env (fuel+1) st opd allowLegacy
      = ({st with perr := some ErrKind.ambiguousAbstract}, none) := by
  have hcmp : compareEntries env.nin env.nargs opd e1.patt e2.patt
      = CmpOut.err :=
    compareGo_err env.nin opd e1.patt e2.patt env.nargs 0 i (Nat.zero_le i)
      (by omega) (fun j _ hj => hall j hj) hslot
  have hres : resolve_implementation_info env opd false
      = RRes.fail ErrKind.ambiguousAbstract := by
    rw [resolve_implementation_info_false, hloops]
    simp only [scanLoopsAll_cons, scanLoopsAll_nil, hm1, hm2, hcmp]
  refine ⟨hres, ?_⟩
  simp only [promote_and_get_info_and_ufuncimpl, hmiss, hres, applyPending]

/-- C9 witness: the theorem applied to the two abstract-slot loops of
`envC9`, which both match the query `(objectD, objectD, objectD)`
(`objectD` is a subclass of both abstract dtypes): resolution fails with
the abstract-comparison error. -/
theorem c9_witness :
    resolve_implementation_info envC9 opdC9 false
      = RRes.fail ErrKind.ambiguousAbstract
    ∧ promote_and_get_info_and_ufuncimpl envC9 1 st0 opdC9 false
      = ({st0 with perr := some ErrKind.ambiguousAbstract}, none) :=
  c9_abstract_comparison_error envC9 0 st0 opdC9 false eAbsA eAbsB 0 rfl
    (by decide) (by decide) (by decide) (fun j hj => absurd hj (by omega))
    (by decide) rfl

end NpyDispatch

namespace NpyDispatch

/-! ### Claim C3 -/

/-- C3 counterexample: for the non-reduction invocation with operand
dtypes `(i32, f64, NULL)`, an all-unset signature and common dtype `f64`,
the default promoter returns `(f64, f64, NULL)` — the unconstrained
output slot keeps the incoming operand dtype instead of adopting the
common dtype as the claim states. -/
theorem c3_counterexample :
    default_ufunc_promoter false cfW 2 3 [some i32, some f64, none]
      [none, none, none] = PromResult.ok [some f64, some f64, none]
    ∧ PromResult.ok ([some f64, some f64, none] : OpTup)
      ≠ PromResult.ok [some f64, some f64, some f64] := by
  constructor
  · decide
  · decide

/-- C3 (amended): when the default promoter computes a common dtype (the
non-reduction case with no abstention), every input slot not fixed by the
signature adopts the common dtype and every input slot fixed by the
signature keeps the signature dtype — but every output slot is then
overwritten with the incoming operand dtype (the second loop of
`default_ufunc_promoter`), so outputs do not adopt the common dtype. -/
theorem c3_default_promoter_slots (commonF : OpTup → Option DType)
    (nin nargs : Nat) (opd sig : OpTup) (d0 c : DType) (newOpd : OpTup)
    (hnin : nin ≤ nargs)
    (h0 : opd.getD 0 none = some d0)
    (hc : (match sigOutCommon nin nargs sig with
           | some x => some x
           | none => commonF (opd.take nin)) = some c)
    (hres : default_ufunc_promoter false commonF nin nargs opd sig
      = PromResult.ok newOpd) :
    (∀ i, i < nin →
      newOpd.getD i none
        = (match sig.getD i none with
           | some s => some s
           | none => some c))
    ∧ (∀ i, nin ≤ i → i < nargs → newOpd.getD i none = opd.getD i none) := by
  have hguard : sbcGuard false sig = false := by simp [sbcGuard]
  unfold default_ufunc_promoter at hres
  rw [hguard] at hres
  simp only [Bool.false_eq_true, if_false, h0, hc] at hres
  have hnew : newOpd = (List.range nargs).map (fun i =>
      if i < nin then
        (match sig.getD i none with
         | some s => some s
         | none => some c)
      else opd.getD i none) := by
    cases hres
    rfl
  subst hnew
  constructor
  · intro i hilt
    rw [getD_map_range _ _ _ _ (by omega), if_pos hilt]
  · intro i hge hlt
    rw [getD_map_range _ _ _ _ hlt, if_neg (by omega)]

/-- C3 witness: the amended theorem applied to the counterexample input,
extracting the concrete first input slot (common dtype `f64`) and the
concrete output slot (unchanged operand dtype, `NULL`). -/
theorem c3_witness :
    (([some f64, some f64, none] : OpTup).getD 0 none = some f64)
    ∧ (([some f64, some f64, none] : OpTup).getD 2 none
        = ([some i32, some f64, none] : OpTup).getD 2 none) :=
  ⟨(c3_default_promoter_slots cfW 2 3 [some i32, some f64, none]
      [none, none, none] i32 f64 [some f64, some f64, none] (by decide)
      (by decide) (by decide) (by decide)).1 0 (by decide),
   (c3_default_promoter_slots cfW 2 3 [some i32, some f64, none]
      [none, none, none] i32 f64 [some f64, some f64, none] (by decide)
      (by decide) (by decide) (by decide)).2 2 (by decide) (by decide)⟩

/-! ### Claim C10 -/

/-- C10: the object-only promoter writes only the slots whose signature
entry is unset.  At the failing input — a two-operand ufunc with the
first slot fixed by the signature — slot 0 of the caller's output array
is left unwritten (`none` in the outer option, i.e. the uninitialized
stack memory of `call_promoter_and_recurse`, which subsequently compares
and releases every slot), contradicting the claim that every slot is
written before the driver reads it back. -/
theorem c10_object_promoter_unwritten_slot :
    object_only_ufunc_promoter objectD 2 [some tT, none]
      = [none, some (some objectD)]
    ∧ (object_only_ufunc_promoter objectD 2 [some tT, none]).getD 0 none
      = none := by
  constructor
  · decide
  · decide

end NpyDispatch

namespace NpyDispatch

/-! ### Claim C6 -/

/-- C6: when a cache miss resolves to a promoter whose invocation rewrites
the operand dtypes and the recursion on the rewritten dtypes succeeds,
the driver adds exactly one cache entry at this level, keyed by the
operand dtypes as they were before the promoter rewrote them — the final
state is the recursion's state with `(opd, result)` prepended, so nothing
at this level is keyed by the rewritten dtypes. -/
theorem c6_cache_original_key (env : Env) (fuel : Nat) (st st2 : DState)
    (opd newOpd : OpTup) (allowLegacy : Bool) (pinfo inf : Info) (pid : Nat)
    (hmiss : cacheGet st.cache opd = none)
    (hres : resolve_implementation_info env opd false
      = RRes.done none (some pinfo))
    (htgt : pinfo.target = Target.promoter pid)
    (hprom : env.promFun pid opd st.sig = PromResult.ok newOpd)
    (hne : newOpd ≠ opd)
    (hrec : promote_and_get_info_and_ufuncimpl env fuel st newOpd false
      = (st2, some inf)) :
    promote_and_get_info_and_ufuncimpl env (fuel+1) st opd allowLegacy
      = ({st2 with cache := (opd, some inf) :: st2.cache}, some inf) := by
  simp only [promote_and_get_info_and_ufuncimpl, hmiss, hres, applyPending,
    call_promoter_and_recurse, htgt, hprom, hne, if_neg, ite_false, hrec]

/-- C6 witness: the theorem applied to the promoter-chain environment
`envC4`: the query `(i32, f64, NULL)` resolves through the catch-all
promoter to the float64 loop, and the result is cached under the original
query, not under the rewritten `(f64, f64, f64)` (which the recursion
cached at its own level). -/
theorem c6_witness :
    promote_and_get_info_and_ufuncimpl envC4 3 st0 opdC4 true
      = ({(⟨[([some f64, some f64, some f64], some eF64)],
            [none, none, none], none, 0⟩ : DState) with
            cache := (opdC4, some eF64)
              :: [([some f64, some f64, some f64], some eF64)]},
         some eF64) :=
  c6_cache_original_key envC4 2 st0
    ⟨[([some f64, some f64, some f64], some eF64)], [none, none, none],
      none, 0⟩
    opdC4 [some f64, some f64, some f64] true eAny eF64 1 rfl (by decide)
    rfl (by decide) (by decide) (by decide)

/-! ### Claim C8 -/

/-- C8: when a promoter returns an operand-dtype tuple slotwise identical
to its input, the driver aborts that promotion path without recursing on
it and continues exactly as if the matcher had found nothing (the legacy
fallback continuation, on the unchanged state); in particular when the
legacy fallback is disallowed or absent the outcome is "no match found"
with no error and no state change, for every recursion budget. -/
theorem c8_identity_promotion_aborts (env : Env) (fuel : Nat) (st : DState)
    (opd : OpTup) (allowLegacy : Bool) (pinfo : Info) (pid : Nat)
    (hmiss : cacheGet st.cache opd = none)
    (hres : resolve_implementation_info env opd false
      = RRes.done none (some pinfo))
    (htgt : pinfo.target = Target.promoter pid)
    (hprom : env.promFun pid opd st.sig = PromResult.ok opd)
    (hperr : st.perr = none) :
    promote_and_get_info_and_ufuncimpl env (fuel+1) st opd allowLegacy
      = legacy_fallback env
          (fun st2 o2 => promote_and_get_info_and_ufuncimpl env fuel st2 o2 false)
          st opd allowLegacy
    ∧ (allowLegacy = false ∨ env.legacy = none →
        promote_and_get_info_and_ufuncimpl env (fuel+1) st opd allowLegacy
          = (st, none)) := by
  have h1 : promote_and_get_info_and_ufuncimpl env (fuel+1) st opd allowLegacy
      = legacy_fallback env
          (fun st2 o2 => promote_and_get_info_and_ufuncimpl env fuel st2 o2 false)
          st opd allowLegacy := by
    simp only [promote_and_get_info_and_ufuncimpl, hmiss, hres, applyPending,
      call_promoter_and_recurse, htgt, hprom, if_pos rfl, hperr, ne_eq,
      not_true_eq_false, if_false, ite_false, not_false_eq_true, if_true]
  refine ⟨h1, ?_⟩
  intro hno
  rw [h1]
  rcases hno with h | h
  · subst h
    simp [legacy_fallback]
  · cases allowLegacy with
    | false => simp [legacy_fallback]
    | true => simp [legacy_fallback, h]

/-- C8 witness: the theorem applied to the identity promoter of `envC8`:
resolution on `(tX, tX, NULL)` finds the promoter, the promoter returns
the input unchanged, and the driver stops with "no match found" leaving
the state untouched. -/
theorem c8_witness :
    promote_and_get_info_and_ufuncimpl envC8 2 st0 opdC8 true = (st0, none) :=
  (c8_identity_promotion_aborts envC8 1 st0 opdC8 true
    ⟨[none, none, none], Target.promoter 9⟩ 9 rfl (by decide) rfl
    (by decide) rfl).2 (Or.inr rfl)

end NpyDispatch

namespace NpyDispatch

/-! ### Claim C4 -/

/-- Whether a driver return value is a concrete-implementation entry (or
nothing). -/
def retOkB : Option Info → Bool
  | some inf => Target.isMethod inf.target
  | none => true

/-- Whether every value stored in the dispatch cache is a
concrete-implementation entry (or a `NULL` placeholder). -/
def methodOnlyB (cache : List (OpTup × Option Info)) : Bool :=
  cache.all (fun kv => retOkB kv.2)

theorem methodOnlyB_cons (kv : OpTup × Option Info)
    (rest : List (OpTup × Option Info)) :
    methodOnlyB (kv :: rest) = (retOkB kv.2 && methodOnlyB rest) := by
  simp [methodOnlyB]

theorem applyPending_cache (st : DState) (p : Option ErrKind) :
    (applyPending st p).cache = st.cache := by
  cases p <;> rfl

theorem cacheGet_methodOnly (c : List (OpTup × Option Info)) (k : OpTup)
    (inf : Info) (hmo : methodOnlyB c = true) (hget : cacheGet c k = some inf) :
    Target.isMethod inf.target = true := by
  induction c with
  | nil => exact absurd hget (by simp [cacheGet])
  | cons kv rest ih =>
    rw [methodOnlyB_cons, Bool.and_eq_true] at hmo
    obtain ⟨k0, v0⟩ := kv
    unfold cacheGet at hget
    by_cases hk : k0 = k
    · rw [if_pos hk] at hget
      subst hget
      exact hmo.1
    · rw [if_neg hk] at hget
      exact ih hmo.2 hget

theorem cpar_cacheInv (env : Env)
    (recur : DState → OpTup → DState × Option Info)
    (st : DState) (opd : OpTup) (pid : Nat)
    (hrec : ∀ st2 o2, methodOnlyB st2.cache = true →
      methodOnlyB ((recur st2 o2).1).cache = true
      ∧ retOkB ((recur st2 o2).2) = true)
    (hst : methodOnlyB st.cache = true) :
    methodOnlyB ((call_promoter_and_recurse env recur st opd pid).1).cache
      = true
    ∧ retOkB ((call_promoter_and_recurse env recur st opd pid).2) = true := by
  unfold call_promoter_and_recurse
  split
  · exact ⟨hst, rfl⟩
  · exact ⟨hst, rfl⟩
  · rename_i newOpd heq
    split
    · exact ⟨hst, rfl⟩
    · exact hrec st newOpd hst

theorem lf_cacheInv (env : Env)
    (recur : DState → OpTup → DState × Option Info)
    (st : DState) (opd : OpTup) (aL : Bool)
    (hrec : ∀ st2 o2, methodOnlyB st2.cache = true →
      methodOnlyB ((recur st2 o2).1).cache = true
      ∧ retOkB ((recur st2 o2).2) = true)
    (hst : methodOnlyB st.cache = true) :
    methodOnlyB ((legacy_fallback env recur st opd aL).1).cache = true
    ∧ retOkB ((legacy_fallback env recur st opd aL).2) = true := by
  unfold legacy_fallback
  split
  · exact ⟨hst, rfl⟩
  · split
    · exact ⟨hst, rfl⟩
    · split
      · exact ⟨hst, rfl⟩
      · rename_i lf newOpd sigU cacheable heq
        have h := hrec
          {st with sig := sigU, legacyCalls := st.legacyCalls + 1} newOpd hst
        split
        · refine ⟨?_, h.2⟩
          rw [methodOnlyB_cons, Bool.and_eq_true]
          exact ⟨h.2, h.1⟩
        · exact h

/-- C4 (amended): the dispatch cache never stores a promoter entry.
Starting from any state whose cache holds only concrete-implementation
entries (or `NULL` placeholders), every value the driver's cache holds
afterwards is still a concrete-implementation entry or a `NULL`
placeholder, and every info the driver returns is a
concrete-implementation entry.  (The cache-hit path does treat a
non-method hit as a fresh promoter invocation skipping the matcher, but
no promoter entry is ever written, so such a hit never arises.) -/
theorem c4_cache_method_only (env : Env) :
    ∀ (fuel : Nat) (st : DState) (opd : OpTup) (aL : Bool),
    methodOnlyB st.cache = true →
    methodOnlyB
      ((promote_and_get_info_and_ufuncimpl env fuel st opd aL).1).cache = true
    ∧ retOkB ((promote_and_get_info_and_ufuncimpl env fuel st opd aL).2)
      = true := by
  intro fuel
  induction fuel with
  | zero => intro st opd aL hst; exact ⟨hst, rfl⟩
  | succ fuel ih =>
    intro st opd aL hst
    have hrec : ∀ st2 o2, methodOnlyB st2.cache = true →
        methodOnlyB
          ((promote_and_get_info_and_ufuncimpl env fuel st2 o2 false).1).cache
          = true
        ∧ retOkB
            ((promote_and_get_info_and_ufuncimpl env fuel st2 o2 false).2)
          = true :=
      fun st2 o2 h => ih st2 o2 false h
    simp only [promote_and_get_info_and_ufuncimpl]
    split
    · rename_i cinfo hc
      split
      · rename_i m hm
        refine ⟨hst, ?_⟩
        simpa [retOkB] using cacheGet_methodOnly st.cache opd cinfo hst hc
      · rename_i pid hp
        have hcp := cpar_cacheInv env
          (fun st2 o2 => promote_and_get_info_and_ufuncimpl env fuel st2 o2 false)
          st opd pid hrec hst
        split
        · rename_i inf h2
          rw [h2] at hcp
          constructor
          · dsimp only
            rw [methodOnlyB_cons, Bool.and_eq_true]
            exact ⟨hcp.2, hcp.1⟩
          · exact hcp.2
        · rename_i h2
          split
          · exact ⟨hcp.1, rfl⟩
          · exact lf_cacheInv env _ _ opd aL hrec hcp.1
    · rename_i hc
      split
      · exact ⟨hst, rfl⟩
      · rename_i pending found hd
        have hst1 : methodOnlyB (applyPending st pending).cache = true := by
          rw [applyPending_cache]
          exact hst
        split
        · rename_i info hf
          split
          · rename_i m hm
            constructor
            · dsimp only
              rw [methodOnlyB_cons, Bool.and_eq_true]
              exact ⟨by simp [retOkB, hm, Target.isMethod], hst1⟩
            · dsimp only
              simp [retOkB, hm, Target.isMethod]
          · rename_i pid hp
            have hcp := cpar_cacheInv env
              (fun st2 o2 =>
                promote_and_get_info_and_ufuncimpl env fuel st2 o2 false)
              (applyPending st pending) opd pid hrec hst1
            split
            · rename_i inf h2
              rw [h2] at hcp
              constructor
              · dsimp only
                rw [methodOnlyB_cons, Bool.and_eq_true]
                exact ⟨hcp.2, hcp.1⟩
              · exact hcp.2
            · rename_i h2
              split
              · exact ⟨hcp.1, rfl⟩
              · exact lf_cacheInv env _ _ opd aL hrec hcp.1
        · rename_i hf
          exact lf_cacheInv env _ _ opd aL hrec hst1

/-- C4 counterexample: a resolution that demonstrably went through the
promoter chain of `envC4` (the original query key is cached, proving this
level used the promoter path) leaves a cache in which every stored value
is a concrete-implementation entry — the promoter entry the matcher
returned is cached nowhere, under neither the original nor the rewritten
dtypes, contradicting the claim that promoter entries can be present in
the cache. -/
theorem c4_counterexample :
    (promote_and_get_info_and_ufuncimpl envC4 3 st0 opdC4 true).1.cache
      = [(opdC4, some eF64), ([some f64, some f64, some f64], some eF64)]
    ∧ methodOnlyB
        (promote_and_get_info_and_ufuncimpl envC4 3 st0 opdC4 true).1.cache
      = true
    ∧ (promote_and_get_info_and_ufuncimpl envC4 3 st0 opdC4 true).2
      = some eF64 := by
  refine ⟨?_, ?_, ?_⟩ <;> decide

/-- C4 witness: the amended invariant applied to the promoter-chain
environment `envC4` from the empty cache. -/
theorem c4_witness :
    methodOnlyB
      ((promote_and_get_info_and_ufuncimpl envC4 3 st0 opdC4 true).1).cache
      = true
    ∧ retOkB ((promote_and_get_info_and_ufuncimpl envC4 3 st0 opdC4 true).2)
      = true :=
  c4_cache_method_only envC4 3 st0 opdC4 true rfl

end NpyDispatch

namespace NpyDispatch

/-! ### Claim C7 -/

theorem cpar_legacyCalls (env : Env)
    (recur : DState → OpTup → DState × Option Info)
    (st : DState) (opd : OpTup) (pid : Nat)
    (hrec : ∀ st2 o2, ((recur st2 o2).1).legacyCalls ≤ st2.legacyCalls) :
    ((call_promoter_and_recurse env recur st opd pid).1).legacyCalls
      ≤ st.legacyCalls := by
  unfold call_promoter_and_recurse
  split
  · exact le_refl _
  · exact le_refl _
  · rename_i newOpd heq
    split
    · exact le_refl _
    · exact hrec st newOpd

theorem lf_legacyCalls (env : Env)
    (recur : DState → OpTup → DState × Option Info)
    (st : DState) (opd : OpTup) (aL : Bool)
    (hrec : ∀ st2 o2, ((recur st2 o2).1).legacyCalls ≤ st2.legacyCalls) :
    ((legacy_fallback env recur st opd aL).1).legacyCalls
      ≤ st.legacyCalls + cond aL 1 0 := by
  cases aL with
  | false => simp [legacy_fallback]
  | true =>
    unfold legacy_fallback
    rw [if_neg (by simp)]
    split
    · exact Nat.le_add_right _ _
    · rename_i lf hl
      split
      · simp
      · rename_i newOpd sigU cacheable heq
        have h := hrec
          {st with sig := sigU, legacyCalls := st.legacyCalls + 1} newOpd
        split
        · simpa using h
        · simpa using h

/-- C7: within one driver call the legacy resolver runs at most once —
at most once when legacy promotion is allowed and never otherwise —
because every recursive resolution entered after a promoter invocation,
and the recursion entered after the legacy fallback itself, passes
`allow_legacy = NPY_FALSE`.  Stated as a bound on the instrumentation
counter of legacy-resolver invocations. -/
theorem c7_legacy_at_most_once (env : Env) :
    ∀ (fuel : Nat) (st : DState) (opd : OpTup) (aL : Bool),
    ((promote_and_get_info_and_ufuncimpl env fuel st opd aL).1).legacyCalls
      ≤ st.legacyCalls + cond aL 1 0 := by
  intro fuel
  induction fuel with
  | zero => intro st opd aL; exact Nat.le_add_right _ _
  | succ fuel ih =>
    intro st opd aL
    have hrec : ∀ st2 o2,
        ((promote_and_get_info_and_ufuncimpl env fuel st2 o2 false).1).legacyCalls
          ≤ st2.legacyCalls := fun st2 o2 => by simpa using ih st2 o2 false
    simp only [promote_and_get_info_and_ufuncimpl]
    split
    · rename_i cinfo hc
      split
      · exact Nat.le_add_right _ _
      · rename_i pid hp
        have hcp := cpar_legacyCalls env
          (fun st2 o2 => promote_and_get_info_and_ufuncimpl env fuel st2 o2 false)
          st opd pid hrec
        split
        · rename_i inf h2
          exact le_trans hcp (Nat.le_add_right _ _)
        · rename_i h2
          split
          · exact le_trans hcp (Nat.le_add_right _ _)
          · exact le_trans (lf_legacyCalls env _ _ opd aL hrec)
              (Nat.add_le_add_right hcp _)
    · rename_i hc
      split
      · exact Nat.le_add_right _ _
      · rename_i pending found hd
        have hst1 : (applyPending st pending).legacyCalls = st.legacyCalls := by
          cases pending <;> rfl
        split
        · rename_i info hf
          split
          · rename_i m hm
            dsimp only
            rw [hst1]
            exact Nat.le_add_right _ _
          · rename_i pid hp
            have hcp := cpar_legacyCalls env
              (fun st2 o2 =>
                promote_and_get_info_and_ufuncimpl env fuel st2 o2 false)
              (applyPending st pending) opd pid hrec
            rw [hst1] at hcp
            split
            · rename_i inf h2
              exact le_trans hcp (Nat.le_add_right _ _)
            · rename_i h2
              split
              · exact le_trans hcp (Nat.le_add_right _ _)
              · exact le_trans (lf_legacyCalls env _ _ opd aL hrec)
                  (Nat.add_le_add_right hcp _)
        · rename_i hf
          exact le_trans (lf_legacyCalls env _ _ opd aL hrec)
            (Nat.add_le_add_right (le_of_eq hst1) _)

end NpyDispatch

namespace NpyDispatch

/-! ### Claim C5 -/

theorem cpar_sig (env : Env)
    (recur : DState → OpTup → DState × Option Info)
    (st : DState) (opd : OpTup) (pid : Nat)
    (hrec : ∀ st2 o2, ((recur st2 o2).1).sig = st2.sig) :
    ((call_promoter_and_recurse env recur st opd pid).1).sig = st.sig := by
  unfold call_promoter_and_recurse
  split
  · rfl
  · rfl
  · rename_i newOpd heq
    split
    · rfl
    · exact hrec st newOpd

theorem lf_none (env : Env)
    (recur : DState → OpTup → DState × Option Info)
    (st : DState) (opd : OpTup) (aL : Bool) (hleg : env.legacy = none) :
    legacy_fallback env recur st opd aL = (st, none) := by
  unfold legacy_fallback
  split
  · rfl
  · rw [hleg]

/-- With no legacy resolver registered, the driver never modifies the
signature. -/
theorem driver_sig (env : Env) (hleg : env.legacy = none) :
    ∀ (fuel : Nat) (st : DState) (opd : OpTup) (aL : Bool),
    ((promote_and_get_info_and_ufuncimpl env fuel st opd aL).1).sig
      = st.sig := by
  intro fuel
  induction fuel with
  | zero => intro st opd aL; rfl
  | succ fuel ih =>
    intro st opd aL
    have hrec : ∀ st2 o2,
        ((promote_and_get_info_and_ufuncimpl env fuel st2 o2 false).1).sig
          = st2.sig := fun st2 o2 => ih st2 o2 false
    simp only [promote_and_get_info_and_ufuncimpl]
    split
    · rename_i cinfo hc
      split
      · rfl
      · rename_i pid hp
        have hcp := cpar_sig env
          (fun st2 o2 => promote_and_get_info_and_ufuncimpl env fuel st2 o2 false)
          st opd pid hrec
        split
        · rename_i inf h2
          exact hcp
        · rename_i h2
          split
          · exact hcp
          · rw [lf_none env _ _ opd aL hleg]
            exact hcp
    · rename_i hc
      split
      · rfl
      · rename_i pending found hd
        have hst1 : (applyPending st pending).sig = st.sig := by
          cases pending <;> rfl
        split
        · rename_i info hf
          split
          · rename_i m hm
            dsimp only
            exact hst1
          · rename_i pid hp
            have hcp := cpar_sig env
              (fun st2 o2 =>
                promote_and_get_info_and_ufuncimpl env fuel st2 o2 false)
              (applyPending st pending) opd pid hrec
            rw [hst1] at hcp
            split
            · exact hcp
            · split
              · exact hcp
              · rw [lf_none env _ _ opd aL hleg]
                exact hcp
        · rename_i hf
          rw [lf_none env _ _ opd aL hleg]
          exact hst1

/-- With no legacy resolver and no forced legacy promotion, one
resolution pass leaves the signature unchanged. -/
theorem pgu_once_sig (env : Env) (dfuel : Nat) (st : DState) (opd : OpTup)
    (aL : Bool) (hleg : env.legacy = none) :
    (pgu_once env dfuel st opd false aL).st.sig = st.sig := by
  unfold pgu_once
  rw [if_neg (by simp)]
  exact driver_sig env hleg dfuel st (overlay env.nin env.nargs st.sig opd) aL

theorem fillSig_getD (nargs : Nat) (sig patt : OpTup) (i : Nat)
    (h : i < nargs) :
    (fillSig nargs sig patt).getD i none
      = (match sig.getD i none with
         | some s => some s
         | none => patt.getD i none) := by
  unfold fillSig
  exact getD_map_range _ _ _ _ h

/-- C5: with `ensure_reduce_compatible` set, signature slot 0 unset and a
matched loop whose registered slot 0 differs from its slot 2 (declared
output `oT`), the driver forces signature slot 0 to `oT` and re-runs the
whole resolution exactly once more in the `ensure_reduce_compatible =
NPY_FALSE` mode (which, as the last conjunct shows, is the behaviour of
`promote_and_get_ufuncimpl` with the flag cleared, so no second
correction can occur); whenever that re-run succeeds, the final returned
signature's slot 0 equals `oT`.  Stated with no legacy resolver, which is
the only source of signature mutation in the driver. -/
theorem c5_reduce_compatible_rerun (env : Env) (dfuel : Nat) (st : DState)
    (opd : OpTup) (allowLegacy : Bool) (info : Info) (oT : DType)
    (hleg : env.legacy = none)
    (hnargs : 0 < env.nargs)
    (hlen : 0 < st.sig.length)
    (hsig0 : st.sig.getD 0 none = none)
    (hfound : (pgu_once env dfuel st opd false allowLegacy).found = some info)
    (hdiff : info.patt.getD 0 none ≠ info.patt.getD 2 none)
    (hout : info.patt.getD 2 none = some oT) :
    promote_and_get_ufuncimpl env dfuel st opd false allowLegacy true
      = pgu_second env dfuel
          {(pgu_once env dfuel st opd false allowLegacy).st with
            sig := (pgu_once env dfuel st opd false allowLegacy).st.sig.set 0
              (some oT)}
          (pgu_once env dfuel st opd false allowLegacy).opd false allowLegacy
    ∧ (∀ st2 sigF inf2,
        pgu_second env dfuel
          {(pgu_once env dfuel st opd false allowLegacy).st with
            sig := (pgu_once env dfuel st opd false allowLegacy).st.sig.set 0
              (some oT)}
          (pgu_once env dfuel st opd false allowLegacy).opd false allowLegacy
          = (st2, some (sigF, inf2)) →
        sigF.getD 0 none = some oT)
    ∧ (∀ (st3 : DState) (opd3 : OpTup),
        promote_and_get_ufuncimpl env dfuel st3 opd3 false allowLegacy false
          = pgu_second env dfuel st3 opd3 false allowLegacy) := by
  have hsigr := pgu_once_sig env dfuel st opd allowLegacy hleg
  have hsig0r : (pgu_once env dfuel st opd false allowLegacy).st.sig.getD 0
      none = none := by
    rw [hsigr]
    exact hsig0
  refine ⟨?_, ?_, ?_⟩
  · simp only [promote_and_get_ufuncimpl, hfound]
    rw [if_pos ⟨trivial, hsig0r, hdiff⟩, hout]
  · intro st2 sigF inf2 h
    have hsig2 : (pgu_once env dfuel
        {(pgu_once env dfuel st opd false allowLegacy).st with
          sig := (pgu_once env dfuel st opd false allowLegacy).st.sig.set 0
            (some oT)}
        (pgu_once env dfuel st opd false allowLegacy).opd false
        allowLegacy).st.sig
        = (pgu_once env dfuel st opd false allowLegacy).st.sig.set 0
            (some oT) :=
      pgu_once_sig env dfuel _ _ allowLegacy hleg
    unfold pgu_second pgu_finish at h
    cases hf2 : (pgu_once env dfuel
        {(pgu_once env dfuel st opd false allowLegacy).st with
          sig := (pgu_once env dfuel st opd false allowLegacy).st.sig.set 0
            (some oT)}
        (pgu_once env dfuel st opd false allowLegacy).opd false
        allowLegacy).found with
    | none =>
      rw [hf2] at h
      have hsnd := congrArg Prod.snd h
      simp at hsnd
    | some info2 =>
      rw [hf2] at h
      simp only [Prod.mk.injEq, Option.some.injEq] at h
      obtain ⟨h1, h2, h3⟩ := h
      rw [← h2, fillSig_getD env.nargs _ _ 0 hnargs, hsig2,
        getD_set_zero _ _ (by rw [hsigr]; exact hlen)]
  · intro st3 opd3
    cases hf3 : (pgu_once env dfuel st3 opd3 false allowLegacy).found with
    | none => simp only [promote_and_get_ufuncimpl, pgu_second, hf3]
    | some info3 =>
      simp only [promote_and_get_ufuncimpl, pgu_second, hf3]
      rw [if_neg (by simp)]

/-- C5 witness: the theorem applied to the reduce environment `envC5` and
the reduction query `(NULL, tT, NULL)`: the matched loop's declared
output is `tB`, so resolution re-runs once with signature slot 0 forced
to `tB`. -/
theorem c5_witness :
    promote_and_get_ufuncimpl envC5 2 st0 opdC5 false false true
      = pgu_second envC5 2
          {(pgu_once envC5 2 st0 opdC5 false false).st with
            sig := (pgu_once envC5 2 st0 opdC5 false false).st.sig.set 0
              (some tB)}
          (pgu_once envC5 2 st0 opdC5 false false).opd false false :=
  (c5_reduce_compatible_rerun envC5 2 st0 opdC5 false eRed tB rfl (by decide)
    (by decide) (by decide) (by decide) (by decide) (by decide)).1

end NpyDispatch
